import Mathlib

/-!
Shallow embedding of the TripoSR desktop front-end
(`simple_gui.py`, `tr_setup_deps.py`, `torchmcubes.py`).

File-system reads, subprocess spawning and tkinter state are modelled by
passing their observable outcomes as explicit arguments; the pure
parameter-to-command-line logic, clamping heuristics, log classification
and preference serialisation are translated directly from the source.
-/

namespace TripoSR

/-! ### Constants (simple_gui.py, lines 20-28) -/

/-- `MC_RES = [6, 9]`: exponent range for mc-resolution. -/
def MC_RES : Int × Int := (6, 9)

/-- `CH_SIZE = [4, 13]`: exponent range for chunk-size. -/
def CH_SIZE : Int × Int := (4, 13)

/-- `TX_RES = [8, 12]`: exponent range for texture-resolution. -/
def TX_RES : Int × Int := (8, 12)

/-- `DEFAULT_MC_RES = 2 ** MC_RES[1]` (= 512). -/
def DEFAULT_MC_RES : Nat := 2 ^ 9

/-- `DEFAULT_CHUNK_SIZE = 2 ** CH_SIZE[0]` (= 16). -/
def DEFAULT_CHUNK_SIZE : Nat := 2 ^ 4

/-- `DEFAULT_TEXTURE_RES = 2 ** 10` (= 1024). -/
def DEFAULT_TEXTURE_RES : Nat := 2 ^ 10

/-! ### run_triposr command construction (simple_gui.py, lines 57-147)

`sys.executable` and `str(TRIPOSR_RUN)` are the first two argv entries;
they are abstract string parameters here.  The numeric parameters are
Python ints; in this GUI they are always non-negative (slider values and
their clamps), so they are embedded as `Nat` and rendered with
`toString`, matching Python's `str()` on non-negative ints. -/

/-- The argv list built by `run_triposr` (lines 81-105): images, then
`--output-dir`, `--mc-resolution`, then `--model-save-format glb` when
not baking, `--chunk-size` when positive, the bake-texture group when
baking, and `--render` last. -/
def buildCmd (pythonExe runScript : String) (images : List String)
    (output_dir : String) (mc_resolution : Nat) (bake_texture : Bool)
    (chunk_size : Nat) (texture_resolution : Nat) (render_flag : Bool) :
    List String :=
  [pythonExe, runScript] ++ images ++
    ["--output-dir", output_dir, "--mc-resolution", toString mc_resolution] ++
    (if !bake_texture then ["--model-save-format", "glb"] else []) ++
    (if chunk_size > 0 then ["--chunk-size", toString chunk_size] else []) ++
    (if bake_texture then
      ["--bake-texture", "--device", "cpu",
       "--texture-resolution", toString texture_resolution]
     else []) ++
    (if render_flag then ["--render"] else [])

/-- Outcome of `run_triposr`: the command actually spawned (`none` when no
process is launched) and the returned exit code.  `scriptIsFile` is the
outcome of `TRIPOSR_RUN.is_file()`, `images` the result of
`_collect_images`, and `waitCode` the value `proc.wait()` would return. -/
def run_triposr (pythonExe runScript : String) (scriptIsFile : Bool)
    (images : List String) (output_dir : String) (mc_resolution : Nat)
    (bake_texture : Bool) (chunk_size : Nat) (texture_resolution : Nat)
    (render_flag : Bool) (waitCode : Int) : Option (List String) × Int :=
  if !scriptIsFile then (none, 1)
  else if images.isEmpty then (none, 1)
  else
    (some (buildCmd pythonExe runScript images output_dir mc_resolution
        bake_texture chunk_size texture_resolution render_flag),
     waitCode)

/-! ### Infix helpers -/

/-- An infix of `l₂` is an infix of `a :: l₂`. -/
lemma isInfix_cons_right {α : Type} {l₁ l₂ : List α} (a : α)
    (h : l₁ <:+: l₂) : l₁ <:+: a :: l₂ := by
  obtain ⟨s, t, rfl⟩ := h
  exact ⟨a :: s, t, rfl⟩

/-- An infix of `l₂` is an infix of `A ++ l₂`. -/
lemma isInfix_append_right {α : Type} {l₁ l₂ : List α} (A : List α)
    (h : l₁ <:+: l₂) : l₁ <:+: A ++ l₂ := by
  obtain ⟨s, t, rfl⟩ := h
  exact ⟨A ++ s, t, by simp⟩

/-- A list is an infix of itself followed by anything. -/
lemma isInfix_self_append {α : Type} (l₁ B : List α) : l₁ <:+: l₁ ++ B :=
  ⟨[], B, rfl⟩

/-- Whether a string's character sequence begins with `--` (the shape of
every long option flag that `run_triposr` appends to the command line).
Real image paths, directories, interpreter paths and decimal renderings
of the numeric parameters never have this shape. -/
def dashDash (s : String) : Bool :=
  match s.data with
  | '-' :: '-' :: _ => true
  | _ => false

/-- The non-flag strings interpolated into the command line. -/
def dataArgs (py runScript out : String) (mc ch tx : Nat)
    (images : List String) : List String :=
  py :: runScript :: out :: toString mc :: toString ch :: toString tx :: images

/-- A `--`-shaped token differs from every clean data string. -/
lemma clean_ne_of_dashDash {py runScript out : String} {mc ch tx : Nat}
    {images : List String} {t : String}
    (hclean : ∀ s ∈ dataArgs py runScript out mc ch tx images, dashDash s = false)
    (ht : dashDash t = true) :
    t ≠ py ∧ t ≠ runScript ∧ t ≠ out ∧ t ≠ toString mc ∧ t ≠ toString ch ∧
      t ≠ toString tx ∧ t ∉ images := by
  have hdata : ∀ s ∈ dataArgs py runScript out mc ch tx images, t ≠ s := by
    intro s hs heq
    have hc := hclean s hs
    rw [← heq, ht] at hc
    cases hc
  refine ⟨hdata py (by simp [dataArgs]), hdata runScript (by simp [dataArgs]),
    hdata out (by simp [dataArgs]), hdata _ (by simp [dataArgs]),
    hdata _ (by simp [dataArgs]), hdata _ (by simp [dataArgs]),
    fun h => hdata t (by simp [dataArgs, h]) rfl⟩

/-- With texture baking on, `--model-save-format` never enters the argv. -/
lemma msf_not_mem_buildCmd {py runScript out : String} {images : List String}
    {mc ch tx : Nat} {render : Bool}
    (hclean : ∀ s ∈ dataArgs py runScript out mc ch tx images, dashDash s = false) :
    "--model-save-format" ∉ buildCmd py runScript images out mc true ch tx render := by
  intro hmem
  obtain ⟨hpy, hrun, hout, hmc, hch2, htx, him⟩ :=
    clean_ne_of_dashDash hclean (t := "--model-save-format") (by decide)
  rcases Nat.eq_zero_or_pos ch with hch | hch <;> cases render <;>
    simp [buildCmd, hch, hpy, hrun, hout, hmc, hch2, htx, him] at hmem

/-- With texture baking off, `--bake-texture` never enters the argv. -/
lemma bakeFlag_not_mem_buildCmd {py runScript out : String} {images : List String}
    {mc ch tx : Nat} {render : Bool}
    (hclean : ∀ s ∈ dataArgs py runScript out mc ch tx images, dashDash s = false) :
    "--bake-texture" ∉ buildCmd py runScript images out mc false ch tx render := by
  intro hmem
  obtain ⟨hpy, hrun, hout, hmc, hch2, htx, him⟩ :=
    clean_ne_of_dashDash hclean (t := "--bake-texture") (by decide)
  rcases Nat.eq_zero_or_pos ch with hch | hch <;> cases render <;>
    simp [buildCmd, hch, hpy, hrun, hout, hmc, hch2, htx, him] at hmem

/-- With `chunk_size = 0`, `--chunk-size` never enters the argv. -/
lemma chunkFlag_not_mem_buildCmd {py runScript out : String} {images : List String}
    {mc tx : Nat} {bake render : Bool}
    (hclean : ∀ s ∈ dataArgs py runScript out mc 0 tx images, dashDash s = false) :
    "--chunk-size" ∉ buildCmd py runScript images out mc bake 0 tx render := by
  intro hmem
  obtain ⟨hpy, hrun, hout, hmc, hch2, htx, him⟩ :=
    clean_ne_of_dashDash hclean (t := "--chunk-size") (by decide)
  cases bake <;> cases render <;>
    simp [buildCmd, hpy, hrun, hout, hmc, hch2, htx, him] at hmem

/-- With the render flag off, `--render` never enters the argv. -/
lemma renderFlag_not_mem_buildCmd {py runScript out : String} {images : List String}
    {mc ch tx : Nat} {bake : Bool}
    (hclean : ∀ s ∈ dataArgs py runScript out mc ch tx images, dashDash s = false) :
    "--render" ∉ buildCmd py runScript images out mc bake ch tx false := by
  intro hmem
  obtain ⟨hpy, hrun, hout, hmc, hch2, htx, him⟩ :=
    clean_ne_of_dashDash hclean (t := "--render") (by decide)
  rcases Nat.eq_zero_or_pos ch with hch | hch <;> cases bake <;>
    simp [buildCmd, hch, hpy, hrun, hout, hmc, hch2, htx, him] at hmem

/-- Every collected image path appears in the argv. -/
lemma mem_buildCmd_of_mem_images {py runScript out : String} {images : List String}
    {mc ch tx : Nat} {bake render : Bool} {img : String} (him : img ∈ images) :
    img ∈ buildCmd py runScript images out mc bake ch tx render := by
  simp [buildCmd, him]

/-- `--output-dir` is always followed by the output directory. -/
lemma outputDir_isInfix_buildCmd (py runScript out : String) (images : List String)
    (mc ch tx : Nat) (bake render : Bool) :
    ["--output-dir", out] <:+: buildCmd py runScript images out mc bake ch tx render := by
  simp only [buildCmd, List.append_assoc, List.cons_append, List.nil_append]
  exact isInfix_cons_right _ (isInfix_cons_right _
    (isInfix_append_right images (isInfix_self_append _ _)))

/-- `--mc-resolution` is always followed by the resolution. -/
lemma mcRes_isInfix_buildCmd (py runScript out : String) (images : List String)
    (mc ch tx : Nat) (bake render : Bool) :
    ["--mc-resolution", toString mc] <:+:
      buildCmd py runScript images out mc bake ch tx render := by
  simp only [buildCmd, List.append_assoc, List.cons_append, List.nil_append]
  exact isInfix_cons_right _ (isInfix_cons_right _
    (isInfix_append_right images (isInfix_cons_right _ (isInfix_cons_right _
      (isInfix_self_append _ _)))))

/-- With baking off, `--model-save-format glb` is in the argv. -/
lemma glb_isInfix_buildCmd (py runScript out : String) (images : List String)
    (mc ch tx : Nat) (render : Bool) :
    ["--model-save-format", "glb"] <:+:
      buildCmd py runScript images out mc false ch tx render := by
  simp only [buildCmd, Bool.not_false, if_true, List.append_assoc,
    List.cons_append, List.nil_append]
  exact isInfix_cons_right _ (isInfix_cons_right _
    (isInfix_append_right images (isInfix_cons_right _ (isInfix_cons_right _
      (isInfix_cons_right _ (isInfix_cons_right _ (isInfix_self_append _ _)))))))

/-- With a positive chunk size, `--chunk-size` is followed by its value. -/
lemma chunk_isInfix_buildCmd (py runScript out : String) (images : List String)
    (mc ch tx : Nat) (bake render : Bool) (hch : 0 < ch) :
    ["--chunk-size", toString ch] <:+:
      buildCmd py runScript images out mc bake ch tx render := by
  cases bake
  · simp only [buildCmd, Bool.not_false, if_true, gt_iff_lt, if_pos hch,
      List.append_assoc, List.cons_append, List.nil_append]
    exact isInfix_cons_right _ (isInfix_cons_right _
      (isInfix_append_right images (isInfix_cons_right _ (isInfix_cons_right _
        (isInfix_cons_right _ (isInfix_cons_right _ (isInfix_cons_right _
          (isInfix_cons_right _ (isInfix_self_append _ _)))))))))
  · simp only [buildCmd, Bool.not_true, if_false, gt_iff_lt, if_pos hch,
      List.append_assoc, List.cons_append, List.nil_append]
    exact isInfix_cons_right _ (isInfix_cons_right _
      (isInfix_append_right images (isInfix_cons_right _ (isInfix_cons_right _
        (isInfix_cons_right _ (isInfix_cons_right _ (isInfix_self_append _ _)))))))

/-- With baking on, the argv carries `--bake-texture`, `--device cpu`,
and `--texture-resolution` with its value. -/
lemma bakeGroup_isInfix_buildCmd (py runScript out : String) (images : List String)
    (mc ch tx : Nat) (render : Bool) :
    "--bake-texture" ∈ buildCmd py runScript images out mc true ch tx render ∧
    ["--device", "cpu"] <:+: buildCmd py runScript images out mc true ch tx render ∧
    ["--texture-resolution", toString tx] <:+:
      buildCmd py runScript images out mc true ch tx render := by
  refine ⟨by simp [buildCmd], ?_, ?_⟩ <;>
    rcases Nat.eq_zero_or_pos ch with hch | hch
  · simp only [buildCmd, hch, Bool.not_true, if_false, gt_iff_lt,
      Nat.lt_irrefl, List.append_assoc, List.cons_append, List.nil_append]
    exact isInfix_cons_right _ (isInfix_cons_right _
      (isInfix_append_right images (isInfix_cons_right _ (isInfix_cons_right _
        (isInfix_cons_right _ (isInfix_cons_right _ (isInfix_cons_right _
          (isInfix_self_append _ _))))))))
  · simp only [buildCmd, Bool.not_true, if_false, gt_iff_lt, if_pos hch,
      List.append_assoc, List.cons_append, List.nil_append]
    exact isInfix_cons_right _ (isInfix_cons_right _
      (isInfix_append_right images (isInfix_cons_right _ (isInfix_cons_right _
        (isInfix_cons_right _ (isInfix_cons_right _ (isInfix_cons_right _
          (isInfix_cons_right _ (isInfix_cons_right _
            (isInfix_self_append _ _))))))))))
  · simp only [buildCmd, hch, Bool.not_true, if_false, gt_iff_lt,
      Nat.lt_irrefl, List.append_assoc, List.cons_append, List.nil_append]
    exact isInfix_cons_right _ (isInfix_cons_right _
      (isInfix_append_right images (isInfix_cons_right _ (isInfix_cons_right _
        (isInfix_cons_right _ (isInfix_cons_right _ (isInfix_cons_right _
          (isInfix_cons_right _ (isInfix_cons_right _
            (isInfix_self_append _ _))))))))))
  · simp only [buildCmd, Bool.not_true, if_false, gt_iff_lt, if_pos hch,
      List.append_assoc, List.cons_append, List.nil_append]
    exact isInfix_cons_right _ (isInfix_cons_right _
      (isInfix_append_right images (isInfix_cons_right _ (isInfix_cons_right _
        (isInfix_cons_right _ (isInfix_cons_right _ (isInfix_cons_right _
          (isInfix_cons_right _ (isInfix_cons_right _ (isInfix_cons_right _
            (isInfix_cons_right _ (isInfix_self_append _ _))))))))))))

/-- With the render flag on, `--render` is in the argv. -/
lemma render_mem_buildCmd (py runScript out : String) (images : List String)
    (mc ch tx : Nat) (bake : Bool) :
    "--render" ∈ buildCmd py runScript images out mc bake ch tx true := by
  simp [buildCmd]

/-! ### Claim theorems for the process launcher -/

/-- **C1.** For every call to `run_triposr` with an existing run script and a
non-empty collected image list — the interpreter path, script path, output
directory, numeric renderings and image paths being genuine data strings,
never `--`-shaped — the spawned command line contains the image paths,
`--output-dir` with the given output directory, and `--mc-resolution` with
the given resolution; it contains `--model-save-format glb` iff
`bake_texture` is false; it contains `--bake-texture`, `--device cpu` and
`--texture-resolution` with the given texture resolution iff `bake_texture`
is true; it contains `--chunk-size` with the given chunk size iff
`chunk_size > 0`; and it contains `--render` iff `render_flag` is true. -/
theorem run_triposr_cmd_spec (py runScript out : String) (images : List String)
    (mc : Nat) (bake : Bool) (ch tx : Nat) (render : Bool) (waitCode : Int)
    (hne : images ≠ [])
    (hclean : ∀ s ∈ dataArgs py runScript out mc ch tx images, dashDash s = false) :
    ∃ cmd,
      (run_triposr py runScript true images out mc bake ch tx render waitCode).1 =
          some cmd ∧
      (∀ img ∈ images, img ∈ cmd) ∧
      ["--output-dir", out] <:+: cmd ∧
      ["--mc-resolution", toString mc] <:+: cmd ∧
      (["--model-save-format", "glb"] <:+: cmd ↔ bake = false) ∧
      (("--bake-texture" ∈ cmd ∧ ["--device", "cpu"] <:+: cmd ∧
        ["--texture-resolution", toString tx] <:+: cmd) ↔ bake = true) ∧
      (["--chunk-size", toString ch] <:+: cmd ↔ 0 < ch) ∧
      ("--render" ∈ cmd ↔ render = true) := by
  refine ⟨buildCmd py runScript images out mc bake ch tx render,
    ?_, ?_, ?_, ?_, ?_, ?_, ?_, ?_⟩
  · cases images with
    | nil => exact absurd rfl hne
    | cons a l => simp [run_triposr]
  · exact fun img him => mem_buildCmd_of_mem_images him
  · exact outputDir_isInfix_buildCmd py runScript out images mc ch tx bake render
  · exact mcRes_isInfix_buildCmd py runScript out images mc ch tx bake render
  · cases bake
    · exact iff_of_true (glb_isInfix_buildCmd py runScript out images mc ch tx render) rfl
    · exact iff_of_false
        (fun h => msf_not_mem_buildCmd hclean (h.subset (by simp))) (by simp)
  · cases bake
    · exact iff_of_false (fun h => bakeFlag_not_mem_buildCmd hclean h.1) (by simp)
    · exact iff_of_true (bakeGroup_isInfix_buildCmd py runScript out images mc ch tx render) rfl
  · rcases Nat.eq_zero_or_pos ch with hch | hch
    · subst hch
      exact iff_of_false
        (fun h => chunkFlag_not_mem_buildCmd hclean (h.subset (by simp))) (by simp)
    · exact iff_of_true (chunk_isInfix_buildCmd py runScript out images mc ch tx bake render hch) hch
  · cases render
    · exact iff_of_false (renderFlag_not_mem_buildCmd hclean) (by simp)
    · exact iff_of_true (render_mem_buildCmd py runScript out images mc ch tx bake) rfl

/-- Witness for C1 at a concrete call. -/
theorem run_triposr_cmd_spec_witness :
    ∃ cmd,
      (run_triposr "python" "run.py" true ["img.png"] "out" 512 true 16 1024 true 0).1 =
          some cmd ∧
      (∀ img ∈ ["img.png"], img ∈ cmd) ∧
      ["--output-dir", "out"] <:+: cmd ∧
      ["--mc-resolution", toString 512] <:+: cmd ∧
      (["--model-save-format", "glb"] <:+: cmd ↔ true = false) ∧
      (("--bake-texture" ∈ cmd ∧ ["--device", "cpu"] <:+: cmd ∧
        ["--texture-resolution", toString 1024] <:+: cmd) ↔ true = true) ∧
      (["--chunk-size", toString 16] <:+: cmd ↔ 0 < 16) ∧
      ("--render" ∈ cmd ↔ true = true) :=
  run_triposr_cmd_spec "python" "run.py" "out" ["img.png"] 512 true 16 1024 true 0
    (by decide) (by decide)

/-- **C2.** `run_triposr` returns the spawned process's `proc.wait()` value
exactly when a process is launched (existing script, non-empty image list),
and returns 1 while spawning nothing otherwise. -/
theorem run_triposr_exit_code (py runScript out : String) (scriptIsFile : Bool)
    (images : List String) (mc : Nat) (bake : Bool) (ch tx : Nat) (render : Bool)
    (waitCode : Int) :
    run_triposr py runScript scriptIsFile images out mc bake ch tx render waitCode =
      if scriptIsFile = true ∧ images ≠ [] then
        (some (buildCmd py runScript images out mc bake ch tx render), waitCode)
      else (none, 1) := by
  cases scriptIsFile <;> cases images <;> simp [run_triposr]

/-! ### Exponent sliders (simple_gui.py, lines 401-432)

Each callback receives the slider position as a string; `int(float(value))`
either yields an integer or raises `ValueError`.  That parse outcome is the
`parsed : Option Int` argument (`none` = `ValueError`, falling back to the
default exponent).  The default exponents are `int(math.log2(DEFAULT_*))`:
9 for mc-resolution, 4 for chunk-size, 10 for texture-resolution. -/

/-- `_on_mc_exp_changed`: clamp the exponent into `MC_RES` and store
`1 << exp` as the actual mc-resolution. -/
def _on_mc_exp_changed (parsed : Option Int) : Nat :=
  let exp : Int := parsed.getD 9
  let exp : Int := max MC_RES.1 (min MC_RES.2 exp)
  2 ^ exp.toNat

/-- `_on_chunk_exp_changed`: clamp the exponent into `CH_SIZE` and store
`1 << exp` as the actual chunk-size. -/
def _on_chunk_exp_changed (parsed : Option Int) : Nat :=
  let exp : Int := parsed.getD 4
  let exp : Int := max CH_SIZE.1 (min CH_SIZE.2 exp)
  2 ^ exp.toNat

/-- `_on_tex_exp_changed`: clamp the exponent into `TX_RES` and store
`1 << exp` as the actual texture-resolution. -/
def _on_tex_exp_changed (parsed : Option Int) : Nat :=
  let exp : Int := parsed.getD 10
  let exp : Int := max TX_RES.1 (min TX_RES.2 exp)
  2 ^ exp.toNat

/-! ### on_run parameter clamping (simple_gui.py, lines 508-554) -/

/-- The VRAM-tier clamp in `on_run` (lines 520-549): three conditional
cap assignments per tier plus the `adjusted` flag; returns
`(chunk_size, mc_res, texture_res, adjusted)`. -/
def vramClamp (total_vram : Int) (chunk_size mc_res texture_res : Nat) :
    Nat × Nat × Nat × Bool :=
  if total_vram ≤ 0 then
    ((if chunk_size > 4096 then 4096 else chunk_size),
     (if mc_res > 256 then 256 else mc_res),
     (if texture_res > 1024 then 1024 else texture_res),
     (decide (chunk_size > 4096) || decide (mc_res > 256) ||
       decide (texture_res > 1024)))
  else if total_vram ≤ 4 * 1024 ^ 3 then
    ((if chunk_size > 4096 then 4096 else chunk_size),
     (if mc_res > 256 then 256 else mc_res),
     (if texture_res > 2048 then 2048 else texture_res),
     (decide (chunk_size > 4096) || decide (mc_res > 256) ||
       decide (texture_res > 2048)))
  else if total_vram ≤ 8 * 1024 ^ 3 then
    ((if chunk_size > 8192 then 8192 else chunk_size),
     (if mc_res > 512 then 512 else mc_res),
     texture_res,
     (decide (chunk_size > 8192) || decide (mc_res > 512)))
  else (chunk_size, mc_res, texture_res, false)

/-- The safe-mode floor applied before the VRAM clamp (lines 508-518):
`min` the three parameters against (96, 128, 512) and force render off. -/
def safeModeAdjust (safe_mode : Bool) (mc_res chunk_size texture_res : Nat)
    (render_flag : Bool) : Nat × Nat × Nat × Bool :=
  if safe_mode then (min mc_res 96, min chunk_size 128, min texture_res 512, false)
  else (mc_res, chunk_size, texture_res, render_flag)

/-- The parameters `on_run` hands to the launcher: safe-mode floor, then
VRAM-tier clamp; returns `(mc_res, chunk_size, texture_res, render_flag)`. -/
def onRunParams (safe_mode : Bool) (total_vram : Int)
    (mc_res chunk_size texture_res : Nat) (render_flag : Bool) :
    Nat × Nat × Nat × Bool :=
  let s := safeModeAdjust safe_mode mc_res chunk_size texture_res render_flag
  let c := vramClamp total_vram s.2.1 s.1 s.2.2.1
  (c.2.1, c.1, c.2.2.1, s.2.2.2)

/-- **C3.** Each slider callback stores `2 ^ exp` where `exp` is the parsed
slider value (default exponent on a parse error) clamped into the
configured exponent range — `[6,9]` for mc-resolution, `[4,13]` for
chunk-size, `[8,12]` for texture-resolution — so the stored actual value
is always a power of two within the corresponding range. -/
theorem slider_callbacks_spec (p₁ p₂ p₃ : Option Int) :
    _on_mc_exp_changed p₁ = 2 ^ (max 6 (min 9 (p₁.getD 9))).toNat ∧
    _on_chunk_exp_changed p₂ = 2 ^ (max 4 (min 13 (p₂.getD 4))).toNat ∧
    _on_tex_exp_changed p₃ = 2 ^ (max 8 (min 12 (p₃.getD 10))).toNat ∧
    (∃ k : Nat, 6 ≤ k ∧ k ≤ 9 ∧ _on_mc_exp_changed p₁ = 2 ^ k) ∧
    (∃ k : Nat, 4 ≤ k ∧ k ≤ 13 ∧ _on_chunk_exp_changed p₂ = 2 ^ k) ∧
    (∃ k : Nat, 8 ≤ k ∧ k ≤ 12 ∧ _on_tex_exp_changed p₃ = 2 ^ k) :=
  ⟨rfl, rfl, rfl,
   ⟨(max 6 (min 9 (p₁.getD 9))).toNat, by omega, by omega, rfl⟩,
   ⟨(max 4 (min 13 (p₂.getD 4))).toNat, by omega, by omega, rfl⟩,
   ⟨(max 8 (min 12 (p₃.getD 10))).toNat, by omega, by omega, rfl⟩⟩

/-- **C4.** The VRAM-tier clamp in `on_run`: with no usable GPU the caps
are (chunk 4096, mc 256, tex 1024); at most 4 GiB they are
(4096, 256, 2048); at most 8 GiB they are (8192, 512) with the texture
resolution uncapped; above 8 GiB nothing is capped; and a parameter below
its cap is left unchanged (`min`). -/
theorem on_run_vram_tiers (v : Int) (chunk mc tex : Nat) :
    (v ≤ 0 →
      (vramClamp v chunk mc tex).1 = min chunk 4096 ∧
      (vramClamp v chunk mc tex).2.1 = min mc 256 ∧
      (vramClamp v chunk mc tex).2.2.1 = min tex 1024) ∧
    (0 < v → v ≤ 4 * 1024 ^ 3 →
      (vramClamp v chunk mc tex).1 = min chunk 4096 ∧
      (vramClamp v chunk mc tex).2.1 = min mc 256 ∧
      (vramClamp v chunk mc tex).2.2.1 = min tex 2048) ∧
    (4 * 1024 ^ 3 < v → v ≤ 8 * 1024 ^ 3 →
      (vramClamp v chunk mc tex).1 = min chunk 8192 ∧
      (vramClamp v chunk mc tex).2.1 = min mc 512 ∧
      (vramClamp v chunk mc tex).2.2.1 = tex) ∧
    (8 * 1024 ^ 3 < v →
      (vramClamp v chunk mc tex).1 = chunk ∧
      (vramClamp v chunk mc tex).2.1 = mc ∧
      (vramClamp v chunk mc tex).2.2.1 = tex) := by
  refine ⟨fun h => ?_, fun h h' => ?_, fun h h' => ?_, fun h => ?_⟩
  · simp only [vramClamp, if_pos h]
    refine ⟨?_, ?_, ?_⟩ <;> split <;> omega
  · simp only [vramClamp, if_neg (by omega : ¬ v ≤ 0), if_pos h']
    refine ⟨?_, ?_, ?_⟩ <;> split <;> omega
  · simp only [vramClamp, if_neg (by omega : ¬ v ≤ 0),
      if_neg (by omega : ¬ v ≤ 4 * 1024 ^ 3), if_pos h']
    refine ⟨?_, ?_, ?_⟩ <;> first | trivial | (split <;> omega)
  · simp only [vramClamp, if_neg (by omega : ¬ v ≤ 0),
      if_neg (by omega : ¬ v ≤ 4 * 1024 ^ 3),
      if_neg (by omega : ¬ v ≤ 8 * 1024 ^ 3)]
    exact ⟨trivial, trivial, trivial⟩

/-- Witness for C4 in the no-GPU tier with every parameter above its cap. -/
theorem on_run_vram_tiers_witness :
    (vramClamp 0 8192 1024 2048).1 = min 8192 4096 ∧
    (vramClamp 0 8192 1024 2048).2.1 = min 1024 256 ∧
    (vramClamp 0 8192 1024 2048).2.2.1 = min 2048 1024 :=
  (on_run_vram_tiers 0 8192 1024 2048).1 (by decide)

/-- **C9.** With safe mode on, `on_run` hands the launcher at most
mc-resolution 96, chunk-size 128 and texture-resolution 512 with the
render flag forced off (the later VRAM clamp never lowers these further);
a slider mc-resolution of at least 96 is handed over as exactly 96,
which is not a power of two. -/
theorem safe_mode_spec (v : Int) (mc chunk tex : Nat) (render : Bool) :
    (onRunParams true v mc chunk tex render).1 ≤ 96 ∧
    (onRunParams true v mc chunk tex render).2.1 ≤ 128 ∧
    (onRunParams true v mc chunk tex render).2.2.1 ≤ 512 ∧
    (onRunParams true v mc chunk tex render).2.2.2 = false ∧
    (96 ≤ mc → (onRunParams true v mc chunk tex render).1 = 96) ∧
    (∀ k : Nat, 2 ^ k ≠ 96) := by
  have h96 : ∀ k : Nat, 2 ^ k ≠ 96 := by
    intro k h
    rcases le_or_lt k 6 with hk | hk
    · have h2 : 2 ^ k ≤ 2 ^ 6 := Nat.pow_le_pow_right (by norm_num) hk
      omega
    · have h2 : 2 ^ 7 ≤ 2 ^ k := Nat.pow_le_pow_right (by norm_num) hk
      omega
  have h1 : ¬ (min chunk 128 > 4096) := by omega
  have h1' : ¬ (min chunk 128 > 8192) := by omega
  have h2 : ¬ (min mc 96 > 256) := by omega
  have h2' : ¬ (min mc 96 > 512) := by omega
  have h3 : ¬ (min tex 512 > 1024) := by omega
  have h3' : ¬ (min tex 512 > 2048) := by omega
  have hcomp : vramClamp v (min chunk 128) (min mc 96) (min tex 512) =
      (min chunk 128, min mc 96, min tex 512, false) := by
    unfold vramClamp
    split_ifs <;> simp [h1, h1', h2, h2', h3, h3']
  have hall : onRunParams true v mc chunk tex render =
      (min mc 96, min chunk 128, min tex 512, false) := by
    unfold onRunParams safeModeAdjust
    simp only [if_true, hcomp]
  rw [hall]
  refine ⟨by simp, by simp, by simp, rfl, fun h => ?_, h96⟩
  simp
  omega

/-- Witness for C9: a 512 slider mc-resolution reaches the launcher as 96. -/
theorem safe_mode_spec_witness :
    (onRunParams true 0 512 8192 2048 true).1 = 96 :=
  (safe_mode_spec 0 512 8192 2048 true).2.2.2.2.1 (by decide)

/-! ### Slider range auto-adjustment (simple_gui.py, lines 434-465) -/

/-- `_auto_adjust_scales_by_vram`: pick new slider maximum exponents by
VRAM tier, `min`'d against the current maxima (`self.*_scale["to"]`),
then lower any current exponent that exceeds its new maximum.  Returns
`((mc_max, chunk_max, tex_max), (mc_exp, chunk_exp, tex_exp))`. -/
def autoAdjustScales (total_vram : Int) (mcTo chunkTo texTo : Int)
    (mcExp chunkExp texExp : Int) : (Int × Int × Int) × (Int × Int × Int) :=
  let m :=
    if total_vram ≤ 0 then (min mcTo 8, min chunkTo 11, min texTo 10)
    else if total_vram ≤ 4 * 1024 ^ 3 then (min mcTo 8, min chunkTo 11, min texTo 11)
    else (min mcTo 9, min chunkTo 12, min texTo 12)
  (m,
   ((if mcExp > m.1 then m.1 else mcExp),
    (if chunkExp > m.2.1 then m.2.1 else chunkExp),
    (if texExp > m.2.2 then m.2.2 else texExp)))

/-- **C5.** Starting from the configured upper bounds (`MC_RES[1]`,
`CH_SIZE[1]`, `TX_RES[1]`) as the current slider maxima,
`_auto_adjust_scales_by_vram` sets the maxima to (8, 11, 10) with no
usable GPU, (8, 11, 11) for at most 4 GiB, and (9, 12, 12) above 4 GiB —
never above the configured upper bounds — and afterwards each exponent is
at most its new maximum, an exponent above it being lowered to exactly
the maximum and one at most it left unchanged. -/
theorem auto_adjust_scales_spec (v mcExp chunkExp texExp : Int) :
    (v ≤ 0 →
      (autoAdjustScales v MC_RES.2 CH_SIZE.2 TX_RES.2 mcExp chunkExp texExp).1 =
        (8, 11, 10)) ∧
    (0 < v → v ≤ 4 * 1024 ^ 3 →
      (autoAdjustScales v MC_RES.2 CH_SIZE.2 TX_RES.2 mcExp chunkExp texExp).1 =
        (8, 11, 11)) ∧
    (4 * 1024 ^ 3 < v →
      (autoAdjustScales v MC_RES.2 CH_SIZE.2 TX_RES.2 mcExp chunkExp texExp).1 =
        (9, 12, 12)) ∧
    ((autoAdjustScales v MC_RES.2 CH_SIZE.2 TX_RES.2 mcExp chunkExp texExp).1.1 ≤
        MC_RES.2 ∧
     (autoAdjustScales v MC_RES.2 CH_SIZE.2 TX_RES.2 mcExp chunkExp texExp).1.2.1 ≤
        CH_SIZE.2 ∧
     (autoAdjustScales v MC_RES.2 CH_SIZE.2 TX_RES.2 mcExp chunkExp texExp).1.2.2 ≤
        TX_RES.2) ∧
    ((autoAdjustScales v MC_RES.2 CH_SIZE.2 TX_RES.2 mcExp chunkExp texExp).2.1 ≤
        (autoAdjustScales v MC_RES.2 CH_SIZE.2 TX_RES.2 mcExp chunkExp texExp).1.1 ∧
     (autoAdjustScales v MC_RES.2 CH_SIZE.2 TX_RES.2 mcExp chunkExp texExp).2.2.1 ≤
        (autoAdjustScales v MC_RES.2 CH_SIZE.2 TX_RES.2 mcExp chunkExp texExp).1.2.1 ∧
     (autoAdjustScales v MC_RES.2 CH_SIZE.2 TX_RES.2 mcExp chunkExp texExp).2.2.2 ≤
        (autoAdjustScales v MC_RES.2 CH_SIZE.2 TX_RES.2 mcExp chunkExp texExp).1.2.2) ∧
    ((mcExp ≤ (autoAdjustScales v MC_RES.2 CH_SIZE.2 TX_RES.2 mcExp chunkExp texExp).1.1 →
      (autoAdjustScales v MC_RES.2 CH_SIZE.2 TX_RES.2 mcExp chunkExp texExp).2.1 = mcExp) ∧
     ((autoAdjustScales v MC_RES.2 CH_SIZE.2 TX_RES.2 mcExp chunkExp texExp).1.1 < mcExp →
      (autoAdjustScales v MC_RES.2 CH_SIZE.2 TX_RES.2 mcExp chunkExp texExp).2.1 =
        (autoAdjustScales v MC_RES.2 CH_SIZE.2 TX_RES.2 mcExp chunkExp texExp).1.1) ∧
     (chunkExp ≤ (autoAdjustScales v MC_RES.2 CH_SIZE.2 TX_RES.2 mcExp chunkExp texExp).1.2.1 →
      (autoAdjustScales v MC_RES.2 CH_SIZE.2 TX_RES.2 mcExp chunkExp texExp).2.2.1 = chunkExp) ∧
     ((autoAdjustScales v MC_RES.2 CH_SIZE.2 TX_RES.2 mcExp chunkExp texExp).1.2.1 < chunkExp →
      (autoAdjustScales v MC_RES.2 CH_SIZE.2 TX_RES.2 mcExp chunkExp texExp).2.2.1 =
        (autoAdjustScales v MC_RES.2 CH_SIZE.2 TX_RES.2 mcExp chunkExp texExp).1.2.1) ∧
     (texExp ≤ (autoAdjustScales v MC_RES.2 CH_SIZE.2 TX_RES.2 mcExp chunkExp texExp).1.2.2 →
      (autoAdjustScales v MC_RES.2 CH_SIZE.2 TX_RES.2 mcExp chunkExp texExp).2.2.2 = texExp) ∧
     ((autoAdjustScales v MC_RES.2 CH_SIZE.2 TX_RES.2 mcExp chunkExp texExp).1.2.2 < texExp →
      (autoAdjustScales v MC_RES.2 CH_SIZE.2 TX_RES.2 mcExp chunkExp texExp).2.2.2 =
        (autoAdjustScales v MC_RES.2 CH_SIZE.2 TX_RES.2 mcExp chunkExp texExp).1.2.2)) := by
  unfold autoAdjustScales
  simp only [MC_RES, CH_SIZE, TX_RES]
  split_ifs <;> simp_all <;> omega

/-- Witness for C5: no GPU, every exponent at its configured maximum. -/
theorem auto_adjust_scales_spec_witness :
    (autoAdjustScales 0 MC_RES.2 CH_SIZE.2 TX_RES.2 9 13 12).1 = (8, 11, 10) :=
  (auto_adjust_scales_spec 0 9 13 12).1 (by decide)

/-! ### Log-line classification (simple_gui.py, lines 122-140) -/

/-- Python's `str.strip()`: drop leading and trailing whitespace. -/
def pyStrip (s : String) : String :=
  ⟨((s.data.dropWhile Char.isWhitespace).reverse.dropWhile Char.isWhitespace).reverse⟩

/-- Python's `pat in s`: contiguous substring containment. -/
def containsSub (s pat : String) : Bool :=
  s.data.tails.any fun t => pat.data.isPrefixOf t

/-- One iteration of the stdout-streaming loop: strip the raw line, test
the fixed substring patterns in order, and return the message handed to
`status_callback` (`none` when no pattern matches and the callback is not
invoked).  The `finished` branch forwards the stripped line itself. -/
def classifyLine (raw : String) : Option String :=
  let line := pyStrip raw
  if containsSub line "Processing images ..." then some "Processing images ..."
  else if containsSub line "Running image" && containsSub line "..." then
    some "Running image 1/1 ..."
  else if containsSub line "Running model ..." then some "Running model ..."
  else if containsSub line "Extracting mesh ..." then some "Extracting mesh ..."
  else if containsSub line "Baking texture ..." then some "Baking texture ..."
  else if containsSub line "Exporting mesh and texture finished" then some line
  else if containsSub line "Exporting mesh and texture ..." then
    some "Exporting mesh and texture ..."
  else none

/-- All status messages forwarded for a stream of stdout lines. -/
def streamStatuses (lines : List String) : List String :=
  lines.filterMap classifyLine

/-- **C6.** The status callback is invoked exactly when the stripped line
contains one of the seven fixed patterns, tested in order with the first
match deciding the label; any other line produces no status update. -/
theorem log_classifier_spec (raw : String) :
    ((classifyLine raw).isSome =
      (containsSub (pyStrip raw) "Processing images ..." ||
       (containsSub (pyStrip raw) "Running image" &&
        containsSub (pyStrip raw) "...") ||
       containsSub (pyStrip raw) "Running model ..." ||
       containsSub (pyStrip raw) "Extracting mesh ..." ||
       containsSub (pyStrip raw) "Baking texture ..." ||
       containsSub (pyStrip raw) "Exporting mesh and texture finished" ||
       containsSub (pyStrip raw) "Exporting mesh and texture ...")) ∧
    (containsSub (pyStrip raw) "Processing images ..." = true →
      classifyLine raw = some "Processing images ...") ∧
    (containsSub (pyStrip raw) "Processing images ..." = false →
     (containsSub (pyStrip raw) "Running image" &&
      containsSub (pyStrip raw) "...") = true →
      classifyLine raw = some "Running image 1/1 ...") ∧
    (containsSub (pyStrip raw) "Processing images ..." = false →
     (containsSub (pyStrip raw) "Running image" &&
      containsSub (pyStrip raw) "...") = false →
     containsSub (pyStrip raw) "Running model ..." = true →
      classifyLine raw = some "Running model ...") ∧
    (containsSub (pyStrip raw) "Processing images ..." = false →
     (containsSub (pyStrip raw) "Running image" &&
      containsSub (pyStrip raw) "...") = false →
     containsSub (pyStrip raw) "Running model ..." = false →
     containsSub (pyStrip raw) "Extracting mesh ..." = true →
      classifyLine raw = some "Extracting mesh ...") ∧
    (containsSub (pyStrip raw) "Processing images ..." = false →
     (containsSub (pyStrip raw) "Running image" &&
      containsSub (pyStrip raw) "...") = false →
     containsSub (pyStrip raw) "Running model ..." = false →
     containsSub (pyStrip raw) "Extracting mesh ..." = false →
     containsSub (pyStrip raw) "Baking texture ..." = true →
      classifyLine raw = some "Baking texture ...") ∧
    (containsSub (pyStrip raw) "Processing images ..." = false →
     (containsSub (pyStrip raw) "Running image" &&
      containsSub (pyStrip raw) "...") = false →
     containsSub (pyStrip raw) "Running model ..." = false →
     containsSub (pyStrip raw) "Extracting mesh ..." = false →
     containsSub (pyStrip raw) "Baking texture ..." = false →
     containsSub (pyStrip raw) "Exporting mesh and texture finished" = true →
      classifyLine raw = some (pyStrip raw)) ∧
    (containsSub (pyStrip raw) "Processing images ..." = false →
     (containsSub (pyStrip raw) "Running image" &&
      containsSub (pyStrip raw) "...") = false →
     containsSub (pyStrip raw) "Running model ..." = false →
     containsSub (pyStrip raw) "Extracting mesh ..." = false →
     containsSub (pyStrip raw) "Baking texture ..." = false →
     containsSub (pyStrip raw) "Exporting mesh and texture finished" = false →
     containsSub (pyStrip raw) "Exporting mesh and texture ..." = true →
      classifyLine raw = some "Exporting mesh and texture ...") ∧
    (containsSub (pyStrip raw) "Processing images ..." = false →
     (containsSub (pyStrip raw) "Running image" &&
      containsSub (pyStrip raw) "...") = false →
     containsSub (pyStrip raw) "Running model ..." = false →
     containsSub (pyStrip raw) "Extracting mesh ..." = false →
     containsSub (pyStrip raw) "Baking texture ..." = false →
     containsSub (pyStrip raw) "Exporting mesh and texture finished" = false →
     containsSub (pyStrip raw) "Exporting mesh and texture ..." = false →
      classifyLine raw = none) := by
  simp only [classifyLine]
  split_ifs <;> simp_all

/-- Witness for C6: a `Running model ...` line, matched third in order. -/
theorem log_classifier_spec_witness :
    classifyLine "Running model ...\n" = some "Running model ..." :=
  (log_classifier_spec "Running model ...\n").2.2.2.1 (by decide) (by decide)
    (by decide)

/-! ### Preference store (simple_gui.py, lines 150-190)

The JSON values the preference file can hold. -/

inductive Json where
  | null : Json
  | bool : Bool → Json
  | num : Int → Json
  | str : String → Json
  | arr : List Json → Json
  | obj : List (String × Json) → Json

/-- `_load_prefs`: `isFile` is `PREF_PATH.is_file()`; `readParse` is the
combined outcome of `read_text` + `json.loads` (`Except.error` models any
raised exception, caught by the bare `except`).  Returns the parsed
object, or `{}` in every other case. -/
def _load_prefs (isFile : Bool) (readParse : Except Unit Json) : Json :=
  if !isFile then Json.obj []
  else
    match readParse with
    | Except.error _ => Json.obj []
    | Except.ok d =>
      match d with
      | Json.obj kvs => Json.obj kvs
      | _ => Json.obj []

/-- The flat record `_save_prefs` serialises (lines 175-185). -/
def savePrefsData (input_path output_dir : String) (mc_resolution : Nat)
    (bake_texture : Bool) (chunk_size texture_resolution : Nat)
    (preview_delete render_flag safe_mode : Bool) : List (String × Json) :=
  [("input_path", Json.str input_path),
   ("output_dir", Json.str output_dir),
   ("mc_resolution", Json.num mc_resolution),
   ("bake_texture", Json.bool bake_texture),
   ("chunk_size", Json.num chunk_size),
   ("texture_resolution", Json.num texture_resolution),
   ("preview_delete", Json.bool preview_delete),
   ("render", Json.bool render_flag),
   ("safe_mode", Json.bool safe_mode)]

/-- `_save_prefs`: attempt to write the record; a failing `write_text`
(`writeOk = false`) is swallowed, leaving the file contents absent
(`none`) and raising nothing. -/
def _save_prefs (writeOk : Bool) (input_path output_dir : String)
    (mc_resolution : Nat) (bake_texture : Bool)
    (chunk_size texture_resolution : Nat)
    (preview_delete render_flag safe_mode : Bool) : Option Json :=
  if writeOk then
    some (Json.obj (savePrefsData input_path output_dir mc_resolution
      bake_texture chunk_size texture_resolution preview_delete render_flag
      safe_mode))
  else none

/-- **C7.** `_load_prefs` is total: it returns the parsed dictionary when
the file exists and parses to a JSON object, and `{}` in every other case
(missing file, read/parse exception, non-object JSON) — its result is
always an object.  `_save_prefs` writes a flat JSON object holding exactly
the nine last-used settings, and a write failure is swallowed. -/
theorem prefs_store_spec (isFile : Bool) (readParse : Except Unit Json)
    (ip od : String) (mc : Nat) (bt : Bool) (ch tx : Nat) (pd rd sm : Bool) :
    (∀ kvs, isFile = true → readParse = Except.ok (Json.obj kvs) →
      _load_prefs isFile readParse = Json.obj kvs) ∧
    (isFile = false → _load_prefs isFile readParse = Json.obj []) ∧
    (∀ e, readParse = Except.error e → _load_prefs isFile readParse = Json.obj []) ∧
    (readParse = Except.ok Json.null → _load_prefs isFile readParse = Json.obj []) ∧
    (∀ xs, readParse = Except.ok (Json.arr xs) →
      _load_prefs isFile readParse = Json.obj []) ∧
    (∃ kvs, _load_prefs isFile readParse = Json.obj kvs) ∧
    ((savePrefsData ip od mc bt ch tx pd rd sm).map Prod.fst =
      ["input_path", "output_dir", "mc_resolution", "bake_texture",
       "chunk_size", "texture_resolution", "preview_delete", "render",
       "safe_mode"]) ∧
    (_save_prefs true ip od mc bt ch tx pd rd sm =
      some (Json.obj (savePrefsData ip od mc bt ch tx pd rd sm))) ∧
    (_save_prefs false ip od mc bt ch tx pd rd sm = none) := by
  refine ⟨?_, ?_, ?_, ?_, ?_, ?_, rfl, rfl, rfl⟩
  · rintro kvs rfl rfl
    rfl
  · rintro rfl
    rfl
  · rintro e rfl
    cases isFile <;> rfl
  · rintro rfl
    cases isFile <;> rfl
  · rintro xs rfl
    cases isFile <;> rfl
  · cases isFile
    · exact ⟨[], rfl⟩
    · match readParse with
      | Except.error _ => exact ⟨[], rfl⟩
      | Except.ok Json.null => exact ⟨[], rfl⟩
      | Except.ok (Json.bool _) => exact ⟨[], rfl⟩
      | Except.ok (Json.num _) => exact ⟨[], rfl⟩
      | Except.ok (Json.str _) => exact ⟨[], rfl⟩
      | Except.ok (Json.arr _) => exact ⟨[], rfl⟩
      | Except.ok (Json.obj kvs) => exact ⟨kvs, rfl⟩

/-- Witness for C7: a stored object round-trips through `_load_prefs`. -/
theorem prefs_store_spec_witness :
    _load_prefs true (Except.ok (Json.obj [("render", Json.bool true)])) =
      Json.obj [("render", Json.bool true)] :=
  (prefs_store_spec true (Except.ok (Json.obj [("render", Json.bool true)]))
    "" "" 0 false 0 0 false false false).1 [("render", Json.bool true)] rfl rfl

/-! ### Dependency installer (tr_setup_deps.py, lines 51-157)

`main()` with the outcome of every external step passed in: `reqExists` is
`REQ_FILE.exists()`, `markerExists` is `TORCHMCUBES_MARKER.exists()` (when
set, both torch reinstall steps are skipped), the `*Rc` arguments are the
`subprocess.call` exit codes of the respective pip invocations, and
`mcubesOk` is whether `import torchmcubes` succeeded.
`patch_requirements()` runs first but never changes the return value. -/

def setupMain (reqExists markerExists : Bool)
    (cpuTorchRc transRc reqRc : Int) (mcubesOk : Bool)
    (onnxRc gradioRc cudaRc numpyRc : Int) : Int :=
  if !reqExists then 1
  else if markerExists = false ∧ cpuTorchRc ≠ 0 then cpuTorchRc
  else if reqRc ≠ 0 then reqRc
  else if gradioRc ≠ 0 then gradioRc
  else if numpyRc ≠ 0 then numpyRc
  else 0

/-- **C8.** The installer returns 1 when `requirements.txt` is missing;
the failing call's nonzero exit code when the CPU torch install (when it
runs), the requirements install, the gradio install, or the final
NumPy (<2.0) reinstall fails; failures of the transformers/tokenizers
pre-install, the onnxruntime install, the CUDA torch reinstall, or the
torchmcubes import never change the return value; and 0 when no aborting
step fails. -/
theorem setup_main_spec (reqExists markerExists : Bool)
    (cpuTorchRc transRc reqRc : Int) (mcubesOk : Bool)
    (onnxRc gradioRc cudaRc numpyRc : Int) :
    (reqExists = false →
      setupMain reqExists markerExists cpuTorchRc transRc reqRc mcubesOk
        onnxRc gradioRc cudaRc numpyRc = 1) ∧
    (reqExists = true → markerExists = false → cpuTorchRc ≠ 0 →
      setupMain reqExists markerExists cpuTorchRc transRc reqRc mcubesOk
        onnxRc gradioRc cudaRc numpyRc = cpuTorchRc) ∧
    (reqExists = true → (markerExists = true ∨ cpuTorchRc = 0) → reqRc ≠ 0 →
      setupMain reqExists markerExists cpuTorchRc transRc reqRc mcubesOk
        onnxRc gradioRc cudaRc numpyRc = reqRc) ∧
    (reqExists = true → (markerExists = true ∨ cpuTorchRc = 0) → reqRc = 0 →
      gradioRc ≠ 0 →
      setupMain reqExists markerExists cpuTorchRc transRc reqRc mcubesOk
        onnxRc gradioRc cudaRc numpyRc = gradioRc) ∧
    (reqExists = true → (markerExists = true ∨ cpuTorchRc = 0) → reqRc = 0 →
      gradioRc = 0 → numpyRc ≠ 0 →
      setupMain reqExists markerExists cpuTorchRc transRc reqRc mcubesOk
        onnxRc gradioRc cudaRc numpyRc = numpyRc) ∧
    (reqExists = true → (markerExists = true ∨ cpuTorchRc = 0) → reqRc = 0 →
      gradioRc = 0 → numpyRc = 0 →
      setupMain reqExists markerExists cpuTorchRc transRc reqRc mcubesOk
        onnxRc gradioRc cudaRc numpyRc = 0) ∧
    (∀ (transRc' onnxRc' cudaRc' : Int) (mcubesOk' : Bool),
      setupMain reqExists markerExists cpuTorchRc transRc reqRc mcubesOk
        onnxRc gradioRc cudaRc numpyRc =
      setupMain reqExists markerExists cpuTorchRc transRc' reqRc mcubesOk'
        onnxRc' gradioRc cudaRc' numpyRc) := by
  refine ⟨?_, ?_, ?_, ?_, ?_, ?_, fun _ _ _ _ => rfl⟩
  · rintro rfl
    rfl
  · rintro rfl rfl h
    simp [setupMain, h]
  · rintro rfl hm h
    rcases hm with rfl | rfl <;> simp [setupMain, h]
  · rintro rfl hm rfl h
    rcases hm with rfl | rfl <;> simp [setupMain, h]
  · rintro rfl hm rfl rfl h
    rcases hm with rfl | rfl <;> simp [setupMain, h]
  · rintro rfl hm rfl rfl rfl
    rcases hm with rfl | rfl <;> simp [setupMain]

/-- Witness for C8: a failing requirements install aborts with its code. -/
theorem setup_main_spec_witness :
    setupMain true true 0 1 7 false 0 0 0 0 = 7 :=
  (setup_main_spec true true 0 1 7 false 0 0 0 0).2.2.1 rfl (Or.inl rfl)
    (by decide)

/-! ### marching_cubes wrapper (torchmcubes.py, lines 5-23)

Only the metadata the claim is about — dtypes and shapes — is tracked;
array contents live inside the opaque `mcubes` library call. -/

inductive DType where
  | float32 : DType
  | float64 : DType
  | int32 : DType
  | int64 : DType
  | other : DType

/-- A numpy array's metadata. -/
structure NPArray where
  dtype : DType
  shape : List Nat

/-- A torch tensor's metadata. -/
structure Tensor where
  dtype : DType
  shape : List Nat

/-- `torch.from_numpy`: dtype- and shape-preserving. -/
def from_numpy (a : NPArray) : Tensor := ⟨a.dtype, a.shape⟩

/-- `.to(dtype=d)`: casts the dtype, keeps the shape. -/
def Tensor.toDtype (t : Tensor) (d : DType) : Tensor := ⟨d, t.shape⟩

/-- `.astype(d)` on a numpy array. -/
def NPArray.astype (a : NPArray) (d : DType) : NPArray := ⟨d, a.shape⟩

/-- The wrapper's `grid` argument: a torch tensor or a numpy array. -/
inductive Grid where
  | tensor : Tensor → Grid
  | array : NPArray → Grid

/-- The `marching_cubes` wrapper: convert a tensor grid to numpy via
`.detach().cpu().numpy()` (dtype/shape preserving), run the PyMCubes CPU
call (its successful outcome is the `mcubesCall` argument; the threshold
is passed through opaquely), and rebuild torch tensors: vertices as
float32, faces `astype`'d to int64. -/
def marching_cubes {T : Type} (mcubesCall : NPArray → T → NPArray × NPArray)
    (grid : Grid) (thresh : T) : Tensor × Tensor :=
  let gridNp : NPArray :=
    match grid with
    | Grid.tensor t => ⟨t.dtype, t.shape⟩
    | Grid.array a => a
  let vf := mcubesCall gridNp thresh
  (Tensor.toDtype (from_numpy vf.1) DType.float32,
   from_numpy (NPArray.astype vf.2 DType.int64))

/-- **C10.** For a grid given either as a tensor or as a numpy array, a
successful underlying CPU marching-cubes call yields a float32 vertex
tensor and an int64 face tensor. -/
theorem marching_cubes_dtypes {T : Type}
    (mcubesCall : NPArray → T → NPArray × NPArray) (grid : Grid) (thresh : T) :
    (marching_cubes mcubesCall grid thresh).1.dtype = DType.float32 ∧
    (marching_cubes mcubesCall grid thresh).2.dtype = DType.int64 :=
  ⟨rfl, rfl⟩

end TripoSR
